import Mathlib

/-!
Shallow embedding of the authentication/session core of the Humanoid-Robots-Book
backend (feature 003-better-auth), together with theorems checking the
natural-language specification against it.

Embedded modules:
- backend/src/utils/auth.py   (password hashing, constant-time verification,
  password strength checking)
- backend/src/utils/jwt.py    (access and reset token creation and validation)
- backend/src/models/auth.py  (pydantic request validators)
- backend/src/routers/auth.py (signup and signin flows over the store)
- backend/src/routers/profile.py (profile update flow)
- backend/src/dependencies/auth.py (get_current_user)

External collaborators are modelled as parameters: the bcrypt primitive
(passlib pwd_context.hash / pwd_context.verify) is a function argument, the
JOSE signing layer is a symbolic signature pair, and the Postgres store is an
explicit record of table rows. Time is an explicit integer Unix timestamp
passed where the code calls datetime.utcnow().
-/

/-! ### ASCII lowercasing (Python str.lower / SQL LOWER on ASCII data) -/

/-- ASCII lowering of one character: codepoints 65..90 shift by 32, everything
else is unchanged. This is the behaviour of Python str.lower and SQL LOWER on
the ASCII strings used for emails in the repository. -/
def lowerChar (c : Char) : Char :=
  if 65 ≤ c.toNat ∧ c.toNat ≤ 90 then Char.ofNat (c.toNat + 32) else c

/-- ASCII lowering of a string, modelling .lower in models/auth.py and
routers/auth.py and LOWER(email) in the SQL queries. -/
def pyLower (s : String) : String := ⟨s.data.map lowerChar⟩

theorem char_toNat_ofNat_valid (m : Nat) (h : m.isValidChar) :
    (Char.ofNat m).toNat = m := by
  simp [Char.ofNat, h, Char.ofNatAux, Char.toNat, UInt32.toNat]

theorem lowerChar_idem (c : Char) : lowerChar (lowerChar c) = lowerChar c := by
  by_cases h : 65 ≤ c.toNat ∧ c.toNat ≤ 90
  · have hv : (c.toNat + 32).isValidChar := Or.inl (by omega)
    have ht : (Char.ofNat (c.toNat + 32)).toNat = c.toNat + 32 :=
      char_toNat_ofNat_valid _ hv
    have h1 : lowerChar c = Char.ofNat (c.toNat + 32) := by
      unfold lowerChar; rw [if_pos h]
    rw [h1]
    unfold lowerChar
    rw [if_neg]
    rw [ht]
    omega
  · have h1 : lowerChar c = c := by unfold lowerChar; rw [if_neg h]
    rw [h1]
    exact h1

theorem pyLower_idem (s : String) : pyLower (pyLower s) = pyLower s := by
  have hfun : lowerChar ∘ lowerChar = lowerChar := funext lowerChar_idem
  simp [pyLower, List.map_map, hfun]

/-! ### utils/auth.py — password hashing and constant-time verification

The bcrypt primitive lives in passlib, outside this repository; it is passed
as a function parameter. `pwd_context.verify` can raise on malformed digests
(spec 4.2 edge case), so it is modelled as returning `Except String Bool`;
a raised exception is an `.error`. -/

/-- FAKE_PASSWORD_HASH from utils/auth.py lines 17-20: a fixed valid bcrypt
digest used when the email does not exist. -/
def FAKE_PASSWORD_HASH : String :=
  "$2b$12$LQv3c1yqBWVHxkd0LHAkCOYz6TtxMQJqhN8/LewY5NU8bvbW5JQCW"

/-- hash_password (utils/auth.py lines 23-64): raises ValueError on an empty
password, otherwise delegates to the bcrypt hash primitive. -/
def hash_password (bcryptHash : String → String) (plain_password : String) :
    Except String String :=
  if plain_password = "" then .error "Password cannot be empty"
  else .ok (bcryptHash plain_password)

/-- Outcome of one verify_password call, recording the boolean result and how
many times the underlying bcrypt verify primitive ran. -/
structure VerifyOutcome where
  result : Bool
  bcryptCalls : Nat
deriving DecidableEq, Repr

/-- verify_password (utils/auth.py lines 67-109): returns False without any
bcrypt work when either argument is the empty string, otherwise runs exactly
one bcrypt verification (which may itself raise). -/
def verify_password (bcryptVerify : String → String → Except String Bool)
    (plain_password hashed_password : String) : Except String VerifyOutcome :=
  if plain_password = "" ∨ hashed_password = "" then
    .ok { result := false, bcryptCalls := 0 }
  else
    (bcryptVerify plain_password hashed_password).map
      (fun b => { result := b, bcryptCalls := 1 })

/-- Lift a total bcrypt verify function into the exception-aware form. -/
def liftBV (bv : String → String → Bool) : String → String → Except String Bool :=
  fun p h => .ok (bv p h)

/-- Outcome of one constant_time_verify call: the boolean result, the argument
pairs of each verify_password invocation, and the number of bcrypt runs. -/
structure CtvOutcome where
  result : Bool
  verifyCalls : List (String × String)
  bcryptCalls : Nat
deriving DecidableEq, Repr

/-- constant_time_verify (utils/auth.py lines 112-154): with an absent stored
digest it verifies the password against FAKE_PASSWORD_HASH and returns False;
with a present digest it verifies against it and returns that result. The
email argument is not used by the function body. -/
def constant_time_verify (bcryptVerify : String → String → Except String Bool)
    (_email password : String) (user_hash : Option String) :
    Except String CtvOutcome :=
  match user_hash with
  | none =>
      (verify_password bcryptVerify password FAKE_PASSWORD_HASH).map
        (fun v => { result := false,
                    verifyCalls := [(password, FAKE_PASSWORD_HASH)],
                    bcryptCalls := v.bcryptCalls })
  | some h =>
      (verify_password bcryptVerify password h).map
        (fun v => { result := v.result,
                    verifyCalls := [(password, h)],
                    bcryptCalls := v.bcryptCalls })

/-- The symbol class of the regex in check_password_strength and
validate_password_strength (braces written as escapes). -/
def PASSWORD_SYMBOLS : String := "!@#$%^&*(),.?\":\x7b\x7d|<>"

/-- Does the string contain at least one character of the symbol class. -/
def containsSymbol (s : String) : Bool :=
  s.data.any (fun c => PASSWORD_SYMBOLS.data.contains c)

/-- check_password_strength (utils/auth.py lines 159-200): collects the
message of every violated rule, in the order length, uppercase, number,
symbol; valid iff the list is empty. -/
def check_password_strength (password : String) : Bool × List String :=
  let errors :=
    (if password.length < 8 then
      ["Password must be at least 8 characters long"] else []) ++
    (if password.data.any Char.isUpper then [] else
      ["Password must contain at least one uppercase letter"]) ++
    (if password.data.any Char.isDigit then [] else
      ["Password must contain at least one number"]) ++
    (if containsSymbol password then [] else
      ["Password must contain at least one symbol (!@#$%^&*...)"])
  (errors.length = 0, errors)

/-- SignupRequest.validate_password_strength (models/auth.py lines 96-118):
the pydantic field validator raises ValueError at the FIRST violated rule, in
the order length, uppercase, number, symbol. -/
def validate_password_strength (v : String) : Except String String :=
  if v.length < 8 then
    .error "Password must be at least 8 characters long"
  else if ¬ v.data.any Char.isUpper then
    .error "Password must contain at least one uppercase letter"
  else if ¬ v.data.any Char.isDigit then
    .error "Password must contain at least one number"
  else if ¬ containsSymbol v then
    .error "Password must contain at least one symbol (!@#$%^&*...)"
  else
    .ok v

/-! ### utils/jwt.py — token creation and validation

The JOSE layer (python-jose) is external; it is modelled symbolically: a
token carries its payload and a signature, where the signature is the pair of
the signing secret and the signed payload. Signature verification succeeds
exactly when the token was produced with the same secret over the same
payload. jwt.decode validates the exp claim against the current time and
reports "Signature has expired." when exp is in the past. -/

/-- Access-token claims built by create_access_token (utils/jwt.py
lines 79-99): standard sub/iat/exp plus identity and hardware profile. -/
structure AccessClaims where
  sub : String
  iat : Int
  exp : Int
  email : String
  name : String
  gpu_type : String
  ram_capacity : String
  coding_languages : List String
  robotics_experience : String
deriving DecidableEq, Repr

/-- Reset-token claims built by create_reset_token (utils/jwt.py
lines 174-180). -/
structure ResetClaims where
  sub : String
  type : String
  reset_counter : Int
  iat : Int
  exp : Int
deriving DecidableEq, Repr

/-- A signed token: payload plus symbolic HS256 signature (secret paired with
the signed payload). -/
structure Jwt (α : Type) where
  payload : α
  sig : String × α
deriving DecidableEq, Repr

/-- jose jwt.encode: sign the payload with the secret. -/
def jose_encode {α : Type} (payload : α) (secret : String) : Jwt α :=
  { payload := payload, sig := (secret, payload) }

/-- jose jwt.decode: verify the signature and the exp claim at time `now`;
on failure raise JWTError with the library reason. -/
def jose_decode {α : Type} [DecidableEq α] (expOf : α → Int) (token : Jwt α)
    (secret : String) (now : Int) : Except String α :=
  if token.sig ≠ (secret, token.payload) then
    .error "Signature verification failed."
  else if expOf token.payload < now then
    .error "Signature has expired."
  else
    .ok token.payload

/-- JWT_EXPIRATION default (utils/jwt.py line 20): 86400 seconds. -/
def JWT_EXPIRATION_SECONDS_default : Int := 86400

/-- create_access_token (utils/jwt.py lines 30-104): payload with sub = user
id, iat = now, exp = now + TTL, plus identity and profile claims, signed with
the module secret. The secret and TTL come from the environment and are
passed explicitly here. -/
def create_access_token (secret : String) (ttl now : Int)
    (user_id email name gpu_type ram_capacity : String)
    (coding_languages : List String) (robotics_experience : String) :
    Jwt AccessClaims :=
  jose_encode
    { sub := user_id
      iat := now
      exp := now + ttl
      email := email
      name := name
      gpu_type := gpu_type
      ram_capacity := ram_capacity
      coding_languages := coding_languages
      robotics_experience := robotics_experience }
    secret

/-- decode_token (utils/jwt.py lines 107-144): jose decode, re-raising any
JWTError with the message prefixed "Invalid or expired token: ". -/
def decode_token (secret : String) (token : Jwt AccessClaims) (now : Int) :
    Except String AccessClaims :=
  match jose_decode AccessClaims.exp token secret now with
  | .ok payload => .ok payload
  | .error e => .error ("Invalid or expired token: " ++ e)

/-- create_reset_token (utils/jwt.py lines 147-183): sub = email, type =
"password_reset", the carried reset counter, iat = now, exp = now + 3600. -/
def create_reset_token (secret : String) (now : Int) (email : String)
    (reset_counter : Int) : Jwt ResetClaims :=
  jose_encode
    { sub := email
      type := "password_reset"
      reset_counter := reset_counter
      iat := now
      exp := now + 3600 }
    secret

/-- decode_reset_token (utils/jwt.py lines 186-223): jose decode (re-raising
JWTError with the prefix "Invalid or expired reset token: "), then reject any
payload whose type claim is not "password_reset". No reset-counter comparison
happens here; the counter is returned to the caller. -/
def decode_reset_token (secret : String) (token : Jwt ResetClaims) (now : Int) :
    Except String ResetClaims :=
  match jose_decode ResetClaims.exp token secret now with
  | .ok payload =>
      if payload.type ≠ "password_reset" then
        .error "Invalid token type (expected password_reset)"
      else
        .ok payload
  | .error e => .error ("Invalid or expired reset token: " ++ e)

/-! ### Store model and router flows

The Postgres store is modelled as lists of rows. Serial ids are modelled by
the current length of the users table. Column defaults of user_profiles
(learning_style, difficulty_level, preferred_language) follow the defaults
declared in models/profile.py. -/

/-- A row of the users table. -/
structure UserRow where
  id : Nat
  email : String
  password_hash : String
  name : String
  is_active : Bool
  last_login : Option Int
deriving DecidableEq, Repr

/-- A row of the user_profiles table. -/
structure ProfileRow where
  user_id : Nat
  gpu_type : String
  ram_capacity : String
  coding_languages : List String
  robotics_experience : String
  learning_style : String
  difficulty_level : String
  preferred_language : String
  updated_at : Int
deriving DecidableEq, Repr

/-- The store: users, user_profiles and the append-only user_activity log
(user id paired with activity_type). -/
structure DB where
  users : List UserRow
  profiles : List ProfileRow
  activity : List (Nat × String)
deriving DecidableEq, Repr

/-- The empty store. -/
def DB.empty : DB := { users := [], profiles := [], activity := [] }

/-- A validated SignupRequest (models/auth.py lines 47-148): the email field
has already been lowered by the normalize_email validator and the password
has passed validate_password_strength. -/
structure SignupRequest where
  email : String
  password : String
  name : String
  gpu_type : String
  ram_capacity : String
  coding_languages : List String
  robotics_experience : String
deriving DecidableEq, Repr

/-- The existence check of signup (routers/auth.py lines 112-117):
SELECT id FROM users WHERE LOWER(email) = lowered request email. -/
def emailExists (db : DB) (email : String) : Bool :=
  db.users.any (fun u => pyLower u.email == pyLower email)

/-- The transaction body of signup (routers/auth.py lines 131-203): inside
one store transaction, insert the users row (email stored lowered), the
user_profiles row (soft fields from column defaults) and the signup activity
event. Returns the new store and the fresh user id. -/
def signup_tx (db : DB) (req : SignupRequest) (password_hash : String)
    (now : Int) : DB × Nat :=
  let user_id := db.users.length
  let user : UserRow :=
    { id := user_id
      email := pyLower req.email
      password_hash := password_hash
      name := req.name
      is_active := true
      last_login := none }
  let profile : ProfileRow :=
    { user_id := user_id
      gpu_type := req.gpu_type
      ram_capacity := req.ram_capacity
      coding_languages := req.coding_languages
      robotics_experience := req.robotics_experience
      learning_style := "balanced"
      difficulty_level := "intermediate"
      preferred_language := "en"
      updated_at := now }
  ({ users := db.users ++ [user]
     profiles := db.profiles ++ [profile]
     activity := db.activity ++ [(user_id, "signup")] }, user_id)

/-- signup (routers/auth.py lines 78-256): existence check (outside any
transaction), then password hashing, then the atomic insert transaction, then
token issuance. Errors carry the HTTP status and detail string. -/
def signup (bcryptHash : String → String) (secret : String) (ttl : Int)
    (db : DB) (req : SignupRequest) (now : Int) :
    DB × Except (Nat × String) (Jwt AccessClaims) :=
  if emailExists db req.email then
    (db, .error (409, "Email already registered. Please sign in instead."))
  else
    let password_hash := bcryptHash req.password
    let (db', user_id) := signup_tx db req password_hash now
    let token := create_access_token secret ttl now (toString user_id)
      (pyLower req.email) req.name req.gpu_type req.ram_capacity
      req.coding_languages req.robotics_experience
    (db', .ok token)

/-- signin (routers/auth.py lines 267-449): lookup by lowered email among
active users, constant-time verification (absent digest when not found), the
generic 401 on failure (with a failed_signin event when the user exists),
profile join, last_login refresh, signin event, token issuance. A bcrypt
exception or a missing profile surfaces as the generic 500 detail. -/
def signin (bcryptVerify : String → String → Except String Bool)
    (secret : String) (ttl : Int) (db : DB) (email password : String)
    (now : Int) : DB × Except (Nat × String) (Jwt AccessClaims) :=
  let user_row := db.users.find?
    (fun u => pyLower u.email == pyLower email && u.is_active)
  let verified := match user_row with
    | some u => constant_time_verify bcryptVerify email password (some u.password_hash)
    | none => constant_time_verify bcryptVerify email password none
  match verified with
  | .error _ =>
      (db, .error (500, "Unable to sign in. Please try again later."))
  | .ok v =>
    if ¬ v.result then
      match user_row with
      | some u =>
          ({ db with activity := db.activity ++ [(u.id, "failed_signin")] },
           .error (401, "Invalid email or password"))
      | none => (db, .error (401, "Invalid email or password"))
    else
      match user_row with
      | none => (db, .error (401, "Invalid email or password"))
      | some u =>
        match db.profiles.find? (fun p => p.user_id == u.id) with
        | none =>
            (db, .error (500, "Account data incomplete. Please contact support."))
        | some p =>
          let db' : DB :=
            { users := db.users.map (fun w =>
                if w.id == u.id then { w with last_login := some now } else w)
              profiles := db.profiles
              activity := db.activity ++ [(u.id, "signin")] }
          let token := create_access_token secret ttl now (toString u.id)
            u.email u.name p.gpu_type p.ram_capacity p.coding_languages
            p.robotics_experience
          (db', .ok token)

/-- ProfileUpdateRequest (models/profile.py lines 105-151): every field
optional, absent fields encoded as none. -/
structure ProfileUpdateRequest where
  gpu_type : Option String := none
  ram_capacity : Option String := none
  coding_languages : Option (List String) := none
  robotics_experience : Option String := none
  learning_style : Option String := none
  difficulty_level : Option String := none
  preferred_language : Option String := none
deriving DecidableEq, Repr

/-- True when no field of the update request is provided (routers/profile.py
lines 196-242: the dynamically built SET list is empty). -/
def noFieldsProvided (r : ProfileUpdateRequest) : Bool :=
  r.gpu_type.isNone && r.ram_capacity.isNone && r.coding_languages.isNone &&
  r.robotics_experience.isNone && r.learning_style.isNone &&
  r.difficulty_level.isNone && r.preferred_language.isNone

/-- The dynamically built UPDATE of routers/profile.py lines 196-267 applied
to one user_profiles row: provided fields overwrite, absent fields keep their
stored value; updated_at is always refreshed. -/
def applyProfileUpdate (r : ProfileUpdateRequest) (now : Int)
    (p : ProfileRow) : ProfileRow :=
  { p with
    gpu_type := r.gpu_type.getD p.gpu_type
    ram_capacity := r.ram_capacity.getD p.ram_capacity
    coding_languages := r.coding_languages.getD p.coding_languages
    robotics_experience := r.robotics_experience.getD p.robotics_experience
    learning_style := r.learning_style.getD p.learning_style
    difficulty_level := r.difficulty_level.getD p.difficulty_level
    preferred_language := r.preferred_language.getD p.preferred_language
    updated_at := now }

/-- update_profile (routers/profile.py lines 164-326): reject an empty update
set before touching the store; run the UPDATE ... RETURNING (404 when no row
matches); fetch the users row for token claims (a missing users row surfaces
as the generic 500 after the profile write); re-issue the token from the
updated profile and the unchanged account identity. -/
def update_profile (secret : String) (ttl : Int) (db : DB) (user_id : Nat)
    (r : ProfileUpdateRequest) (now : Int) :
    DB × Except (Nat × String) (ProfileRow × Jwt AccessClaims) :=
  if noFieldsProvided r then
    (db, .error (400, "No fields provided for update"))
  else
    match db.profiles.find? (fun p => p.user_id == user_id) with
    | none => (db, .error (404, "User profile not found"))
    | some p =>
      let p' := applyProfileUpdate r now p
      let db' : DB :=
        { db with profiles := db.profiles.map (fun q =>
            if q.user_id == user_id then p' else q) }
      match db.users.find? (fun u => u.id == user_id) with
      | none =>
          (db', .error (500, "Unable to update profile. Please try again later."))
      | some u =>
        let token := create_access_token secret ttl now (toString user_id)
          u.email u.name p'.gpu_type p'.ram_capacity p'.coding_languages
          p'.robotics_experience
        (db', .ok (p', token))

/-- Outcome of the get_current_user dependency: the decoded claims or a 401
with its detail string. -/
inductive AuthOutcome where
  | ok (claims : AccessClaims)
  | unauthorized (detail : String)
deriving DecidableEq, Repr

/-- get_current_user (dependencies/auth.py lines 23-89): missing credentials
give a fixed 401; a JWTError from decode_token is caught and its text is
embedded into the 401 detail after a second "Invalid or expired token: "
prefix. -/
def get_current_user (secret : String) (credentials : Option (Jwt AccessClaims))
    (now : Int) : AuthOutcome :=
  match credentials with
  | none => .unauthorized "Not authenticated. Please sign in."
  | some token =>
    match decode_token secret token now with
    | .ok payload => .ok payload
    | .error e => .unauthorized ("Invalid or expired token: " ++ e)

/-! ### Interleaving model for concurrent signups

Each in-flight signup executes two atomic store phases, exactly as the code
orders them: phase 0 is the existence check of routers/auth.py lines 112-125
(a single SELECT, outside any transaction), phase 1 is the
conn.transaction() block of lines 131-203 (one atomic insert group). The
password hashing between them touches no store state. A schedule interleaves
the phases of two signup calls; within a phase no interleaving is possible
(each phase is one store round-trip, atomic under the cooperative
scheduler). -/

/-- Final outcome of one signup call in the interleaving model. -/
inductive SignupOutcome where
  | conflict
  | inserted
deriving DecidableEq, Repr

/-- Control state of one in-flight signup call. -/
structure SignupProc where
  req : SignupRequest
  password_hash : String
  pc : Nat
  foundExisting : Bool
  outcome : Option SignupOutcome
deriving DecidableEq, Repr

/-- A signup call about to run, for the given request. -/
def SignupProc.start (req : SignupRequest) (password_hash : String) : SignupProc :=
  { req := req, password_hash := password_hash, pc := 0,
    foundExisting := false, outcome := none }

/-- Execute the next atomic phase of one signup call against the store. -/
def signupStep (db : DB) (p : SignupProc) (now : Int) : DB × SignupProc :=
  if p.pc = 0 then
    (db, { p with pc := 1, foundExisting := emailExists db p.req.email })
  else if p.pc = 1 then
    if p.foundExisting then
      (db, { p with pc := 2, outcome := some SignupOutcome.conflict })
    else
      let (db', _) := signup_tx db p.req p.password_hash now
      (db', { p with pc := 2, outcome := some SignupOutcome.inserted })
  else
    (db, p)

/-- Run a schedule over two concurrent signup calls: `false` schedules the
first call's next phase, `true` the second's. -/
def runSignups (db : DB) (a b : SignupProc) (now : Int) :
    List Bool → DB × SignupProc × SignupProc
  | [] => (db, a, b)
  | c :: rest =>
    if c then
      let (db', b') := signupStep db b now
      runSignups db' a b' now rest
    else
      let (db', a') := signupStep db a now
      runSignups db' a' b now rest

/-! ### Theorems -/

/-- C10: verify_password returns False immediately, with zero bcrypt
invocations and no exception, when the plain password or the stored digest is
the empty string; hash_password on an empty password fails with the
validation error before any hashing. -/
theorem verify_password_empty_short_circuit
    (bv : String → String → Except String Bool) (bh : String → String)
    (p h : String) (hemp : p = "" ∨ h = "") :
    verify_password bv p h = .ok { result := false, bcryptCalls := 0 } ∧
    hash_password bh "" = .error "Password cannot be empty" := by
  constructor
  · unfold verify_password
    rw [if_pos hemp]
  · rfl

theorem verify_password_empty_short_circuit_witness :
    verify_password (fun _ _ => .error "boom") "" "$2b$12$x" =
      .ok { result := false, bcryptCalls := 0 } ∧
    hash_password (fun s => s) "" = .error "Password cannot be empty" :=
  verify_password_empty_short_circuit (fun _ _ => .error "boom") (fun s => s)
    "" "$2b$12$x" (Or.inl rfl)

/-- C1 as stated is false: with an empty submitted password,
constant_time_verify performs zero bcrypt verifications (verify_password
short-circuits), not exactly one. -/
theorem constant_time_verify_no_bcrypt_on_empty_password :
    constant_time_verify (liftBV (fun _ _ => true)) "user@example.com" "" none =
      .ok { result := false, verifyCalls := [("", FAKE_PASSWORD_HASH)],
            bcryptCalls := 0 } ∧
    (0 : Nat) ≠ 1 := by
  constructor
  · rfl
  · decide

/-- C1 amended: constant_time_verify invokes verify_password exactly once on
every call; the underlying bcrypt verification count is the same whether the
stored digest is present (and non-empty, as every real bcrypt digest is) or
absent, and equals one whenever the submitted password is non-empty. -/
theorem constant_time_verify_bcrypt_count
    (bv : String → String → Bool) (email password h : String) (hh : h ≠ "") :
    (constant_time_verify (liftBV bv) email password none).map
        (fun r => r.verifyCalls.length) = .ok 1 ∧
    (constant_time_verify (liftBV bv) email password (some h)).map
        (fun r => r.verifyCalls.length) = .ok 1 ∧
    (constant_time_verify (liftBV bv) email password (some h)).map
        (fun r => r.bcryptCalls) =
      (constant_time_verify (liftBV bv) email password none).map
        (fun r => r.bcryptCalls) ∧
    (password ≠ "" →
      (constant_time_verify (liftBV bv) email password (some h)).map
          (fun r => r.bcryptCalls) = .ok 1) := by
  have hf : FAKE_PASSWORD_HASH ≠ "" := by decide
  unfold constant_time_verify verify_password liftBV
  by_cases hp : password = "" <;> simp [hp, hf, hh, Except.map]

theorem constant_time_verify_bcrypt_count_witness :
    (constant_time_verify (liftBV (fun _ _ => false)) "a@x.com" "Secure1!"
        (some "$2b$12$y")).map (fun r => r.bcryptCalls) = .ok 1 ∧
    (constant_time_verify (liftBV (fun _ _ => false)) "a@x.com" "Secure1!"
        none).map (fun r => r.verifyCalls.length) = .ok 1 :=
  ⟨(constant_time_verify_bcrypt_count (fun _ _ => false) "a@x.com" "Secure1!"
      "$2b$12$y" (by decide)).2.2.2 (by decide),
   (constant_time_verify_bcrypt_count (fun _ _ => false) "a@x.com" "Secure1!"
      "$2b$12$y" (by decide)).1⟩

/-- C5: with an absent stored digest, constant_time_verify passes the fixed
decoy digest FAKE_PASSWORD_HASH to verify_password and returns False, for
every email and password; the decoy is a well-formed 60-character bcrypt
digest with the $2b$12$ cost prefix. -/
theorem constant_time_verify_absent_decoy
    (bv : String → String → Bool) (email password : String) :
    constant_time_verify (liftBV bv) email password none =
      .ok { result := false,
            verifyCalls := [(password, FAKE_PASSWORD_HASH)],
            bcryptCalls := if password = "" then 0 else 1 } ∧
    FAKE_PASSWORD_HASH.data.take 7 = "$2b$12$".data ∧
    FAKE_PASSWORD_HASH.data.length = 60 := by
  refine ⟨?_, by decide, by decide⟩
  have hf : FAKE_PASSWORD_HASH ≠ "" := by decide
  unfold constant_time_verify verify_password liftBV
  by_cases hp : password = "" <;> simp [hp, hf, Except.map]

/-- C3 as stated is false: the password "abc" violates all four strength
rules, but the pydantic signup validator fails with only the first rule's
message; the unused utility check_password_strength does list all four. -/
theorem signup_password_error_lists_only_first :
    validate_password_strength "abc" =
      .error "Password must be at least 8 characters long" ∧
    (check_password_strength "abc").2 =
      ["Password must be at least 8 characters long",
       "Password must contain at least one uppercase letter",
       "Password must contain at least one number",
       "Password must contain at least one symbol (!@#$%^&*...)"] := by
  constructor
  · rfl
  · rfl

/-- C3 amended: on signup the password validator rejects any password that
violates a rule, but reports only the first violated rule in the order
length, uppercase, number, symbol — exactly the head of the full list that
check_password_strength would produce. -/
theorem validate_password_strength_reports_first_rule (p : String) :
    validate_password_strength p =
      (match (check_password_strength p).2 with
       | [] => .ok p
       | e :: _ => .error e) := by
  unfold validate_password_strength check_password_strength
  by_cases h1 : p.length < 8 <;> by_cases h2 : p.data.any Char.isUpper <;>
    by_cases h3 : p.data.any Char.isDigit <;> by_cases h4 : containsSymbol p <;>
      simp [h1, h2, h3, h4]

/-- C2: decoding the token produced by create_access_token before its expiry
succeeds and returns exactly the submitted claims bundle; decoding the same
token after its expiry fails with the invalid/expired-token error. -/
theorem access_token_round_trip (secret : String) (ttl now t : Int)
    (user_id email name gpu_type ram_capacity : String)
    (langs : List String) (robotics_experience : String) :
    (t ≤ now + ttl →
      decode_token secret
        (create_access_token secret ttl now user_id email name gpu_type
          ram_capacity langs robotics_experience) t =
        .ok { sub := user_id, iat := now, exp := now + ttl, email := email,
              name := name, gpu_type := gpu_type, ram_capacity := ram_capacity,
              coding_languages := langs,
              robotics_experience := robotics_experience }) ∧
    (now + ttl < t →
      decode_token secret
        (create_access_token secret ttl now user_id email name gpu_type
          ram_capacity langs robotics_experience) t =
        .error "Invalid or expired token: Signature has expired.") := by
  constructor
  · intro hbefore
    have h1 : ¬ (now + ttl < t) := by omega
    simp [decode_token, create_access_token, jose_encode, jose_decode, h1]
  · intro hafter
    simp [decode_token, create_access_token, jose_encode, jose_decode, hafter]

theorem access_token_round_trip_witness :
    decode_token "sk" (create_access_token "sk" 86400 0 "uid-1" "a@x.com"
        "John Doe" "NVIDIA RTX 3060" "16-32GB" ["Python"]
        "Hobbyist (built simple projects)") 100 =
      .ok { sub := "uid-1", iat := 0, exp := 86400, email := "a@x.com",
            name := "John Doe", gpu_type := "NVIDIA RTX 3060",
            ram_capacity := "16-32GB", coding_languages := ["Python"],
            robotics_experience := "Hobbyist (built simple projects)" } ∧
    decode_token "sk" (create_access_token "sk" 86400 0 "uid-1" "a@x.com"
        "John Doe" "NVIDIA RTX 3060" "16-32GB" ["Python"]
        "Hobbyist (built simple projects)") 100000 =
      .error "Invalid or expired token: Signature has expired." :=
  ⟨(access_token_round_trip "sk" 86400 0 100 "uid-1" "a@x.com" "John Doe"
      "NVIDIA RTX 3060" "16-32GB" ["Python"]
      "Hobbyist (built simple projects)").1 (by omega),
   (access_token_round_trip "sk" 86400 0 100000 "uid-1" "a@x.com" "John Doe"
      "NVIDIA RTX 3060" "16-32GB" ["Python"]
      "Hobbyist (built simple projects)").2 (by omega)⟩

/-- C9 as stated is false: decode_reset_token performs no reset-counter
comparison. A valid unexpired reset token carrying counter 5 is accepted
(its claims are returned) even when the account's current counter is 6. -/
theorem decode_reset_token_ignores_counter :
    decode_reset_token "sk" (create_reset_token "sk" 0 "a@x.com" 5) 100 =
      .ok { sub := "a@x.com", type := "password_reset", reset_counter := 5,
            iat := 0, exp := 3600 } ∧
    (5 : Int) ≠ 6 := by
  constructor
  · rfl
  · decide

/-- C9 amended: decode_reset_token rejects any token whose type claim is not
"password_reset" (every accepted payload has that type), but it does not
compare the carried reset-counter with anything: a well-signed unexpired
reset token is accepted whatever counter value it carries, the counter being
returned to the caller for validation. -/
theorem decode_reset_token_checks_type_only (secret email : String)
    (c now t : Int) (hok : ¬ now + 3600 < t) :
    decode_reset_token secret (create_reset_token secret now email c) t =
      .ok { sub := email, type := "password_reset", reset_counter := c,
            iat := now, exp := now + 3600 } ∧
    (∀ token p, decode_reset_token secret token t = .ok p →
      p.type = "password_reset") := by
  constructor
  · simp [decode_reset_token, create_reset_token, jose_encode, jose_decode, hok]
  · intro token p hp
    unfold decode_reset_token at hp
    cases hdec : jose_decode ResetClaims.exp token secret t with
    | ok payload =>
        rw [hdec] at hp
        by_cases hty : payload.type = "password_reset"
        · simp [hty] at hp
          rw [← hp]
          exact hty
        · simp [hty] at hp
    | error e =>
        rw [hdec] at hp
        simp at hp

theorem decode_reset_token_checks_type_only_witness :
    decode_reset_token "sk" (create_reset_token "sk" 0 "a@x.com" 5) 600 =
      .ok { sub := "a@x.com", type := "password_reset", reset_counter := 5,
            iat := 0, exp := 3600 } :=
  (decode_reset_token_checks_type_only "sk" "a@x.com" 5 0 600 (by omega)).1

/-- C8 as stated is false: the 401 detail produced for an expired token
embeds the underlying library error text (twice behind the prefix, since
decode_token already re-wraps the JWTError and get_current_user prefixes it
again), so it is not one of the two fixed strings. -/
theorem token_failure_detail_not_fixed :
    get_current_user "sk"
        (some (create_access_token "sk" 1 0 "uid-1" "a@x.com" "N" "G" "R"
          ["Python"] "E")) 10 =
      .unauthorized
        "Invalid or expired token: Invalid or expired token: Signature has expired." ∧
    "Invalid or expired token: Invalid or expired token: Signature has expired." ≠
      "invalid or expired token" ∧
    "Invalid or expired token: Invalid or expired token: Signature has expired." ≠
      "invalid email or password" := by
  refine ⟨rfl, by decide, by decide⟩

/-- C8 amended: bad-credential failures from signin always carry the single
fixed detail "Invalid email or password" (the only 401 signin can produce,
whether the email is unknown or the password wrong); a missing token gives
the fixed "Not authenticated. Please sign in."; but a failing token
validation gives "Invalid or expired token: " followed by the underlying
error text, so token-failure messages are not a single fixed string and do
include internal detail. -/
theorem auth_failure_message_policy (bv : String → String → Except String Bool)
    (secret : String) (ttl : Int) (db : DB) (email password : String)
    (now : Int) (token : Jwt AccessClaims) (t : Int) :
    (∀ c d, (signin bv secret ttl db email password now).2 = .error (c, d) →
      c = 401 → d = "Invalid email or password") ∧
    get_current_user secret none t =
      .unauthorized "Not authenticated. Please sign in." ∧
    (∀ e, decode_token secret token t = .error e →
      get_current_user secret (some token) t =
        .unauthorized ("Invalid or expired token: " ++ e)) := by
  refine ⟨?_, rfl, ?_⟩
  · intro c d herr hc
    unfold signin at herr
    rcases hfind : db.users.find?
        (fun u => pyLower u.email == pyLower email && u.is_active) with _ | u
    · simp only [hfind] at herr
      rcases hv : constant_time_verify bv email password none with e | v
      · simp only [hv] at herr
        simp at herr
        obtain ⟨h1, h2⟩ := herr
        omega
      · simp only [hv] at herr
        by_cases hres : v.result = true
        · simp [hres] at herr
          exact herr.2.symm
        · simp [hres] at herr
          exact herr.2.symm
    · simp only [hfind] at herr
      rcases hv : constant_time_verify bv email password (some u.password_hash)
          with e | v
      · simp only [hv] at herr
        simp at herr
        obtain ⟨h1, h2⟩ := herr
        omega
      · simp only [hv] at herr
        by_cases hres : v.result = true
        · simp only [hres] at herr
          rcases hprof : db.profiles.find? (fun p => p.user_id == u.id)
              with _ | p
          · simp only [hprof] at herr
            simp at herr
            obtain ⟨h1, h2⟩ := herr
            omega
          · simp only [hprof] at herr
            simp at herr
        · simp [hres] at herr
          exact herr.2.symm
  · intro e he
    simp [get_current_user, he]

theorem auth_failure_message_policy_witness :
    (signin (liftBV (fun _ _ => false)) "sk" 86400 DB.empty "a@x.com" "pw" 0).2 =
      .error (401, "Invalid email or password") ∧
    get_current_user "sk" none 0 =
      .unauthorized "Not authenticated. Please sign in." ∧
    "Invalid email or password" = "Invalid email or password" :=
  ⟨by rfl,
   (auth_failure_message_policy (liftBV (fun _ _ => false)) "sk" 86400 DB.empty
      "a@x.com" "pw" 0 (create_access_token "sk" 1 0 "u" "e" "n" "g" "r" [] "x")
      0).2.1,
   (auth_failure_message_policy (liftBV (fun _ _ => false)) "sk" 86400 DB.empty
      "a@x.com" "pw" 0 (create_access_token "sk" 1 0 "u" "e" "n" "g" "r" [] "x")
      0).1 401 "Invalid email or password" (by rfl) rfl⟩

/-- C6: when a signup succeeds for one email, a second signup whose email
differs only in letter case (same ASCII lowering) fails with the 409
duplicate-email conflict, because both the stored email and the checked email
are lowered. -/
theorem signup_case_insensitive_conflict
    (bh1 bh2 : String → String) (secret1 secret2 : String) (ttl1 ttl2 : Int)
    (db : DB) (req1 req2 : SignupRequest) (now1 now2 : Int)
    (token : Jwt AccessClaims)
    (hcase : pyLower req2.email = pyLower req1.email)
    (hok : (signup bh1 secret1 ttl1 db req1 now1).2 = .ok token) :
    (signup bh2 secret2 ttl2 (signup bh1 secret1 ttl1 db req1 now1).1 req2
        now2).2 =
      .error (409, "Email already registered. Please sign in instead.") := by
  unfold signup at hok ⊢
  by_cases hex : emailExists db req1.email
  · simp [hex] at hok
  · simp only [hex, if_false, Bool.false_eq_true]
    have hex2 : emailExists (signup_tx db req1 (bh1 req1.password) now1).1
        req2.email = true := by
      unfold emailExists signup_tx
      simp [List.any_append, pyLower_idem, hcase]
    simp [hex2]

theorem signup_case_insensitive_conflict_witness :
    (signup (fun _ => "$2b$12$h") "sk" 86400
        ((signup (fun _ => "$2b$12$h") "sk" 86400 DB.empty
            { email := "A@x.com", password := "Secure1!", name := "John",
              gpu_type := "NVIDIA RTX 3060", ram_capacity := "16-32GB",
              coding_languages := ["Python"],
              robotics_experience := "No prior experience" } 0).1)
        { email := "a@x.com", password := "Secure1!", name := "Jane",
          gpu_type := "Other", ram_capacity := "4-8GB",
          coding_languages := ["C++"],
          robotics_experience := "No prior experience" } 5).2 =
      .error (409, "Email already registered. Please sign in instead.") :=
  signup_case_insensitive_conflict (fun _ => "$2b$12$h") (fun _ => "$2b$12$h")
    "sk" "sk" 86400 86400 DB.empty
    { email := "A@x.com", password := "Secure1!", name := "John",
      gpu_type := "NVIDIA RTX 3060", ram_capacity := "16-32GB",
      coding_languages := ["Python"],
      robotics_experience := "No prior experience" }
    { email := "a@x.com", password := "Secure1!", name := "Jane",
      gpu_type := "Other", ram_capacity := "4-8GB",
      coding_languages := ["C++"],
      robotics_experience := "No prior experience" } 0 5
    (create_access_token "sk" 86400 0 "0" (pyLower "A@x.com") "John"
      "NVIDIA RTX 3060" "16-32GB" ["Python"] "No prior experience")
    (by rfl) (by rfl)

/-- Store used to witness the profile-update frame property: one account with
one profile row. -/
def sampleDB : DB :=
  { users := [{ id := 0, email := "a@x.com", password_hash := "$2b$12$h",
                name := "John", is_active := true, last_login := none }]
    profiles := [{ user_id := 0, gpu_type := "NVIDIA RTX 4080/4090",
                   ram_capacity := "16-32GB", coding_languages := ["Python"],
                   robotics_experience := "No prior experience",
                   learning_style := "balanced",
                   difficulty_level := "intermediate",
                   preferred_language := "en", updated_at := 0 }]
    activity := [] }

/-- C7: a profile update providing only gpu_type succeeds, leaves every other
profile field and the account identity (email, name) at their prior values,
and the re-issued token carries the new gpu_type while every other claim
comes from the prior state; an update providing no field fails with the
no-fields error and returns the store unchanged. -/
theorem update_profile_frame (secret : String) (ttl : Int) (db : DB)
    (user_id : Nat) (g : String) (now : Int) (p : ProfileRow) (u : UserRow)
    (hp : db.profiles.find? (fun q => q.user_id == user_id) = some p)
    (hu : db.users.find? (fun w => w.id == user_id) = some u) :
    (update_profile secret ttl db user_id
        { gpu_type := some g } now).2 =
      .ok ({ user_id := p.user_id, gpu_type := g,
             ram_capacity := p.ram_capacity,
             coding_languages := p.coding_languages,
             robotics_experience := p.robotics_experience,
             learning_style := p.learning_style,
             difficulty_level := p.difficulty_level,
             preferred_language := p.preferred_language,
             updated_at := now },
           create_access_token secret ttl now (toString user_id) u.email
             u.name g p.ram_capacity p.coding_languages
             p.robotics_experience) ∧
    update_profile secret ttl db user_id
        { gpu_type := none } now =
      (db, .error (400, "No fields provided for update")) := by
  constructor
  · unfold update_profile
    simp [noFieldsProvided, hp, hu, applyProfileUpdate]
  · rfl

theorem update_profile_frame_witness :
    (update_profile "sk" 86400 sampleDB 0
        { gpu_type := some "NVIDIA RTX 3060" } 7).2 =
      .ok ({ user_id := 0, gpu_type := "NVIDIA RTX 3060",
             ram_capacity := "16-32GB", coding_languages := ["Python"],
             robotics_experience := "No prior experience",
             learning_style := "balanced",
             difficulty_level := "intermediate",
             preferred_language := "en", updated_at := 7 },
           create_access_token "sk" 86400 7 "0" "a@x.com" "John"
             "NVIDIA RTX 3060" "16-32GB" ["Python"]
             "No prior experience") ∧
    update_profile "sk" 86400 sampleDB 0 { gpu_type := none } 7 =
      (sampleDB, .error (400, "No fields provided for update")) :=
  update_profile_frame "sk" 86400 sampleDB 0 "NVIDIA RTX 3060" 7
    { user_id := 0, gpu_type := "NVIDIA RTX 4080/4090",
      ram_capacity := "16-32GB", coding_languages := ["Python"],
      robotics_experience := "No prior experience",
      learning_style := "balanced", difficulty_level := "intermediate",
      preferred_language := "en", updated_at := 0 }
    { id := 0, email := "a@x.com", password_hash := "$2b$12$h",
      name := "John", is_active := true, last_login := none }
    (by rfl) (by rfl)

/-- The request used to exhibit the duplicate-signup race. -/
def raceRequest : SignupRequest :=
  { email := "a@x.com", password := "Secure1!", name := "John",
    gpu_type := "NVIDIA RTX 3060", ram_capacity := "16-32GB",
    coding_languages := ["Python"],
    robotics_experience := "No prior experience" }

/-- C4 as stated is false: under the schedule check / check / insert / insert
(possible because the existence check of routers/auth.py line 114 executes
before the transaction opened at line 132), two concurrent signups for the
same email both pass the existence check and both insert: the final users
table holds two rows with that email. -/
theorem concurrent_signups_both_insert :
    (runSignups DB.empty (SignupProc.start raceRequest "$2b$12$h")
        (SignupProc.start raceRequest "$2b$12$h") 0
        [false, true, false, true]).2.1.outcome = some .inserted ∧
    (runSignups DB.empty (SignupProc.start raceRequest "$2b$12$h")
        (SignupProc.start raceRequest "$2b$12$h") 0
        [false, true, false, true]).2.2.outcome = some .inserted ∧
    ((runSignups DB.empty (SignupProc.start raceRequest "$2b$12$h")
        (SignupProc.start raceRequest "$2b$12$h") 0
        [false, true, false, true]).1.users.filter
      (fun u => u.email == "a@x.com")).length = 2 := by
  refine ⟨rfl, rfl, rfl⟩

/-- C4 amended: only the insert group (users + user_profiles + user_activity
rows) runs inside one store transaction; the email existence check runs
before that transaction. Consequently, for any request, the interleaved
schedule check / check / insert / insert makes both concurrent signups insert
(two users rows result), while a serial execution makes the second signup
fail with the duplicate-email conflict. -/
theorem signup_check_outside_transaction (req : SignupRequest) (ph : String)
    (now : Int) :
    ((runSignups DB.empty (SignupProc.start req ph)
        (SignupProc.start req ph) now [false, true, false, true]).2.1.outcome =
          some .inserted ∧
      (runSignups DB.empty (SignupProc.start req ph)
        (SignupProc.start req ph) now [false, true, false, true]).2.2.outcome =
          some .inserted ∧
      (runSignups DB.empty (SignupProc.start req ph)
        (SignupProc.start req ph) now [false, true, false, true]).1.users.length
          = 2) ∧
    ((runSignups DB.empty (SignupProc.start req ph)
        (SignupProc.start req ph) now [false, false, true, true]).2.1.outcome =
          some .inserted ∧
      (runSignups DB.empty (SignupProc.start req ph)
        (SignupProc.start req ph) now [false, false, true, true]).2.2.outcome =
          some .conflict) := by
  constructor
  · simp [runSignups, signupStep, SignupProc.start, emailExists, signup_tx,
      DB.empty]
  · simp [runSignups, signupStep, SignupProc.start, emailExists, signup_tx,
      DB.empty, pyLower_idem]
